import Mathlib

/-!
Verification of the message-board backend (`src/server.js`,
`src/middleware/auth.js`, `src/routes/appeals.js`, `src/models/Appeal.js`).

The repository is an Express application over MongoDB/Mongoose.  We embed
the data model and the route handlers that the specification's claims
concern as pure Lean functions over an explicit store.  Each Mongo
collection is a list of documents; `_id` is a unique key per collection in
MongoDB, so `findByIdAndDelete`/`deleteOne {_id}` (which remove the unique
matching document) are embedded as a filter on the id.  A handler takes the
decoded token claims (`req.user`), the route/body parameters and the store,
and returns the HTTP status it responds with together with the store after
the request.
-/

namespace Back

/-- Decoded token payload attached by the auth middleware as `req.user`:
`{ userId, role, avatar, gender }` (signed at login in `server.js`). -/
structure Claims where
  userId : String
  role : String
  avatar : String
  gender : String
deriving Repr, DecidableEq

/-- A document of the `Message` collection (`messageSchema` in `server.js`):
name, message text, owner `userId`, `textColor`, `images`, `likes`
(a JS number, embedded as `Int`; schema default 0) and the list of
reply ids `replies`. -/
structure Message where
  id : String
  name : String
  message : String
  userId : String
  textColor : String
  images : List String
  likes : Int
  replies : List String
deriving Repr, DecidableEq

/-- A document of the `Reply` collection (`replySchema` in `server.js`):
parent `messageId`, owner `userId`, reply text. -/
structure Reply where
  id : String
  messageId : String
  userId : String
  reply : String
deriving Repr, DecidableEq

/-- A document of the `Appeal` collection (`appealSchema` in `server.js`). -/
structure Appeal where
  id : String
  userId : String
  appealType : String
  report : String
  content : String
deriving Repr, DecidableEq

/-- The persistent store: the three collections the claims concern. -/
structure DB where
  messages : List Message
  replies : List Reply
  appeals : List Appeal
deriving Repr, DecidableEq

/-- `Message.findById` : first (unique) document with the given `_id`. -/
def findMessage (db : DB) (id : String) : Option Message :=
  db.messages.find? (fun m => m.id == id)

/-- `Reply.findById`. -/
def findReply (db : DB) (id : String) : Option Reply :=
  db.replies.find? (fun r => r.id == id)

/-- Replace the message with the given id by the saved document
(`messageToUpdate.save()` / `message.save()` after in-place edits). -/
def saveMessage (db : DB) (id : String) (m : Message) : DB :=
  { db with messages := db.messages.map (fun x => if x.id == id then m else x) }

/-- `DELETE /api/messages/:id` (server.js lines 185-203): find the message
(404 if absent); 403 unless the requester owns it or has role `admin`;
otherwise `findByIdAndDelete` and respond 200. -/
def deleteMessage (user : Claims) (id : String) (db : DB) : Nat × DB :=
  match findMessage db id with
  | none => (404, db)
  | some m =>
    if m.userId != user.userId && user.role != "admin" then
      (403, db)
    else
      (200, { db with messages := db.messages.filter (fun x => x.id != id) })

/-- The request body of `PUT /api/messages/:id`: each of the three editable
fields is present (`!== undefined`) or absent. -/
structure MessagePatch where
  name : Option String
  message : Option String
  textColor : Option String
deriving Repr, DecidableEq

/-- `PUT /api/messages/:id` (server.js lines 208-237): find the message
(404 if absent); 403 unless the requester's `userId` equals the owner's
(no role check); assign each field present in the body; save; 200. -/
def putMessage (user : Claims) (id : String) (patch : MessagePatch) (db : DB) :
    Nat × DB :=
  match findMessage db id with
  | none => (404, db)
  | some m =>
    if m.userId != user.userId then
      (403, db)
    else
      let m1 := match patch.name with
        | none => m
        | some v => { m with name := v }
      let m2 := match patch.message with
        | none => m1
        | some v => { m1 with message := v }
      let m3 := match patch.textColor with
        | none => m2
        | some v => { m2 with textColor := v }
      (200, saveMessage db id m3)

/-- `POST /api/messages/:id/like` (server.js lines 258-273): find the
message (404 if absent); `message.likes += 1`; save; 200. -/
def likeMessage (id : String) (db : DB) : Nat × DB :=
  match findMessage db id with
  | none => (404, db)
  | some m =>
    (200, saveMessage db id { m with likes := m.likes + 1 })

/-- `POST /api/messages/:id/unlike` (server.js lines 276-293): find the
message (404 if absent); decrement `likes` only when `likes > 0`; save;
200. -/
def unlikeMessage (id : String) (db : DB) : Nat × DB :=
  match findMessage db id with
  | none => (404, db)
  | some m =>
    let m1 := if m.likes > 0 then { m with likes := m.likes - 1 } else m
    (200, saveMessage db id m1)

/-- `POST /api/messages/:id/replies` (server.js lines 312-330): 400 when the
body's `reply` field is falsy (absent or empty); otherwise create the Reply
document with `messageId` taken from the route parameter and owner
`req.user.userId`, then `Message.findByIdAndUpdate(messageId, {$push:
{replies: newReply._id}})`, which is a no-op when no such message exists;
respond 201.  `newId` stands for the `_id` Mongo assigns to the new
document. -/
def createReply (user : Claims) (messageId : String) (replyText : String)
    (newId : String) (db : DB) : Nat × DB :=
  if replyText == "" then
    (400, db)
  else
    let newReply : Reply :=
      { id := newId, messageId := messageId, userId := user.userId,
        reply := replyText }
    let db1 := { db with replies := db.replies ++ [newReply] }
    let db2 := { db1 with messages := db1.messages.map (fun m =>
        if m.id == messageId then { m with replies := m.replies ++ [newId] }
        else m) }
    (201, db2)

/-- `DELETE /api/messages/:messageId/replies/:replyId` (server.js lines
345-374): find the message (404 if absent); find the reply (404 if absent);
403 unless the requester owns the reply or has role `admin`;
`Reply.deleteOne({_id: replyId})`, filter the fetched message's `replies`
list and save it; 200.  Note the handler never compares `reply.messageId`
with the `messageId` route parameter. -/
def deleteReply (user : Claims) (messageId replyId : String) (db : DB) :
    Nat × DB :=
  match findMessage db messageId with
  | none => (404, db)
  | some m =>
    match findReply db replyId with
    | none => (404, db)
    | some r =>
      if r.userId != user.userId && user.role != "admin" then
        (403, db)
      else
        let db1 :=
          { db with replies := db.replies.filter (fun x => x.id != replyId) }
        let m1 := { m with replies := m.replies.filter (fun x => x != replyId) }
        (200, saveMessage db1 messageId m1)

/-- `DELETE /api/appeals/:id` (server.js lines 410-418):
`Appeal.findByIdAndDelete(id)` with no ownership, role or existence check
(`findByIdAndDelete` is a no-op on a missing id), then respond 200. -/
def deleteAppeal (_user : Claims) (id : String) (db : DB) : Nat × DB :=
  (200, { db with appeals := db.appeals.filter (fun a => a.id != id) })

/-- `Appeal.findById`. -/
def findAppeal (db : DB) (id : String) : Option Appeal :=
  db.appeals.find? (fun a => a.id == id)

/-! ### The session validator (`src/middleware/auth.js`)

The middleware itself is in the repository; the `jsonwebtoken` collaborator
(`jwt.verify`) is an external library, embedded from the spec's description
of it. -/

/-- Modelled from the spec: the payload of a signed session token as issued
at login — claims `{userId, role, avatar, gender}` plus the expiry
timestamp `exp` and the HMAC signature over payload and secret
(`jsonwebtoken` is a library collaborator, not repository code). -/
structure SignedToken where
  userId : String
  role : String
  avatar : String
  gender : String
  exp : Nat
  sig : Nat
deriving Repr, DecidableEq

/-- Modelled from the spec: the keyed signature the issuer computes over the
token payload.  The cryptographic HMAC is abstracted by a concrete keyed
function of the payload; all that the claims use is that verification
compares the carried signature against the recomputed one. -/
def signToken (secret : String) (userId role avatar gender : String)
    (exp : Nat) : Nat :=
  (secret.length + 1) *
    (userId.length + 3 * role.length + 5 * avatar.length +
      7 * gender.length + 11 * exp + 13)

/-- Split a character list at every occurrence of the separator, keeping
empty segments — the semantics of JavaScript `String.prototype.split` with
a single-character separator. -/
def splitChars (sep : Char) : List Char → List (List Char)
  | [] => [[]]
  | c :: cs =>
    match splitChars sep cs with
    | [] => if c = sep then [[], []] else [[c]]
    | g :: gs => if c = sep then [] :: g :: gs else (c :: g) :: gs

/-- JavaScript `s.split(sep)` for a one-character separator. -/
def jsSplit (s : String) (sep : Char) : List String :=
  (splitChars sep s.data).map (fun cs => String.mk cs)

/-- The numeric value of a decimal digit character. -/
def digit? (c : Char) : Option Nat :=
  if '0' ≤ c ∧ c ≤ '9' then some (c.toNat - '0'.toNat) else none

/-- Read a non-empty all-digits character list as a natural number. -/
def natOfChars : List Char → Option Nat
  | [] => none
  | cs =>
    cs.foldl
      (fun acc c =>
        match acc, digit? c with
        | some n, some d => some (10 * n + d)
        | _, _ => none)
      (some 0)

/-- Modelled from the spec: decoding the compact serialized form of a token
into its payload fields (dot-separated here, standing in for the JWT
encoding); a string that is not a well-formed token fails to decode and
hence fails verification. -/
def parseToken (s : String) : Option SignedToken :=
  match (splitChars '.' s.data).map (fun cs => String.mk cs) with
  | [userId, role, avatar, gender, expStr, sigStr] =>
    match natOfChars expStr.data, natOfChars sigStr.data with
    | some exp, some sig =>
      some { userId := userId, role := role, avatar := avatar,
             gender := gender, exp := exp, sig := sig }
    | _, _ => none
  | _ => none

/-- Modelled from the spec: `jwt.verify(token, SECRET_KEY)` — succeeds and
returns the decoded claims exactly when the token decodes, its signature is
the one recomputed with the secret, and it has not yet expired
(`now < exp`); any malformed, forged or expired token is rejected. -/
def jwtVerify (secret : String) (now : Nat) (s : String) : Option Claims :=
  match parseToken s with
  | none => none
  | some t =>
    if t.sig = signToken secret t.userId t.role t.avatar t.gender t.exp ∧
        now < t.exp then
      some { userId := t.userId, role := t.role, avatar := t.avatar,
             gender := t.gender }
    else
      none

/-- Outcome of the auth middleware: a rejection with an HTTP status sent
before any handler runs, or the decoded claims attached as `req.user`. -/
inductive AuthOutcome where
  | reject (status : Nat)
  | authorized (user : Claims)
deriving Repr, DecidableEq

/-- `authMiddleware` (middleware/auth.js lines 4-34): 401 when the
`Authorization` header is absent; take the segment after the first space
(`authorizationHeader.split(' ')[1]`), 401 when that token segment is
absent or empty; 403 when `jwt.verify` rejects the token; otherwise attach
the decoded claims and continue. -/
def authMiddleware (secret : String) (now : Nat)
    (authorizationHeader : Option String) : AuthOutcome :=
  match authorizationHeader with
  | none => .reject 401
  | some h =>
    match (jsSplit h ' ').get? 1 with
    | none => .reject 401
    | some token =>
      if token == "" then
        .reject 401
      else
        match jwtVerify secret now token with
        | some decoded => .authorized decoded
        | none => .reject 403

/-- A protected route: the middleware runs first and, only if it calls
`next()`, the handler runs with `req.user` set to the decoded claims; a
rejection responds immediately and touches no state. -/
def protectedRoute (secret : String) (now : Nat) (header : Option String)
    (handler : Claims → DB → Nat × DB) (db : DB) : Nat × DB :=
  match authMiddleware secret now header with
  | .reject s => (s, db)
  | .authorized u => handler u db

/-! ### Sequences of like/unlike operations -/

/-- One like or unlike request against a message id. -/
inductive LikeOp where
  | like (id : String)
  | unlike (id : String)
deriving Repr, DecidableEq

/-- The store after one like/unlike request. -/
def applyLikeOp (db : DB) (op : LikeOp) : DB :=
  match op with
  | .like id => (likeMessage id db).2
  | .unlike id => (unlikeMessage id db).2

/-- The store after a sequence of like/unlike requests. -/
def applyLikeOps (db : DB) (ops : List LikeOp) : DB :=
  ops.foldl applyLikeOp db

/-! ### Sample users, documents and store used by the witnesses -/

/-- A regular user who owns `msg1` and `rep2`. -/
def user1 : Claims :=
  { userId := "u1", role := "user", avatar := "av", gender := "f" }

/-- A regular user who owns `msg2` and `rep1`. -/
def user2 : Claims :=
  { userId := "u2", role := "user", avatar := "av", gender := "m" }

/-- An administrator who owns nothing. -/
def admin1 : Claims :=
  { userId := "u9", role := "admin", avatar := "av", gender := "m" }

/-- A message of `u1` with no likes and one reply `r1`. -/
def msg1 : Message :=
  { id := "m1", name := "alice", message := "hi", userId := "u1",
    textColor := "#000", images := [], likes := 0, replies := ["r1"] }

/-- A message of `u2` with two likes and one reply `r2`. -/
def msg2 : Message :=
  { id := "m2", name := "bob", message := "yo", userId := "u2",
    textColor := "#fff", images := ["i1"], likes := 2, replies := ["r2"] }

/-- A reply by `u2` under `m1`. -/
def rep1 : Reply :=
  { id := "r1", messageId := "m1", userId := "u2", reply := "re1" }

/-- A reply by `u1` under `m2`. -/
def rep2 : Reply :=
  { id := "r2", messageId := "m2", userId := "u1", reply := "re2" }

/-- An appeal filed by `u1`. -/
def app1 : Appeal :=
  { id := "a1", userId := "u1", appealType := "t", report := "rep",
    content := "c" }

/-- The concrete store the witnesses run the handlers on. -/
def db1 : DB :=
  { messages := [msg1, msg2], replies := [rep1, rep2], appeals := [app1] }

/-! ### List-level lemmas about find, filter and the save/update maps -/

/-- Deleting every document matching a key leaves nothing for a lookup with
that key to find. -/
theorem find?_filter_neg {α : Type} (p : α → Bool) (l : List α) :
    (l.filter (fun x => !(p x))).find? p = none := by
  rw [List.find?_eq_none]
  intro x hx
  have h := (List.mem_filter.mp hx).2
  simp only [Bool.not_eq_true'] at h
  simp [h]

/-- Saving an edited document over the (first-found) original makes the
lookup return the edited document, provided it still matches the key. -/
theorem find?_update {α : Type} (p : α → Bool) (b : α) (hb : p b = true) :
    ∀ (l : List α) (a : α), l.find? p = some a →
      (l.map (fun x => if p x then b else x)).find? p = some b := by
  intro l
  induction l with
  | nil => intro a h; simp [List.find?] at h
  | cons x xs ih =>
    intro a h
    by_cases hx : p x = true
    · simp [List.find?, hx, hb]
    · have hx' : p x = false := by simpa using hx
      rw [List.find?_cons_of_neg _ (by simp [hx'])] at h
      simpa [List.find?, hx', hb] using ih a h

/-- A map that fixes every document satisfying the lookup key and preserves
the key elsewhere does not change the result of the lookup. -/
theorem find?_map_invariant {α : Type} (q : α → Bool) (f : α → α)
    (l : List α) (h1 : ∀ x, q (f x) = q x)
    (h2 : ∀ x, q x = true → f x = x) :
    (l.map f).find? q = l.find? q := by
  induction l with
  | nil => rfl
  | cons x xs ih =>
    by_cases hx : q x = true
    · rw [List.map_cons, List.find?_cons_of_pos _ (by rw [h1]; exact hx),
        List.find?_cons_of_pos _ hx, h2 x hx]
    · have hx' : q x = false := by simpa using hx
      rw [List.map_cons, List.find?_cons_of_neg _ (by simp [h1, hx']),
        List.find?_cons_of_neg _ (by simp [hx']), ih]

/-- An update keyed on an id that occurs nowhere in the list is a no-op. -/
theorem map_if_no_match {α : Type} (p : α → Bool) (f : α → α) :
    ∀ l : List α, (∀ x ∈ l, p x = false) →
      l.map (fun x => if p x then f x else x) = l := by
  intro l
  induction l with
  | nil => intro _; rfl
  | cons x xs ih =>
    intro h
    have hx := h x (List.mem_cons_self x xs)
    rw [List.map_cons, if_neg (by simp [hx]),
      ih (fun y hy => h y (List.mem_cons_of_mem x hy))]

/-- A found document matches the key it was looked up by. -/
theorem findMessage_id {db : DB} {id : String} {m : Message}
    (hm : findMessage db id = some m) : m.id = id := by
  have := List.find?_some hm
  simpa [beq_iff_eq] using this

/-- A found document belongs to the collection. -/
theorem findMessage_mem {db : DB} {id : String} {m : Message}
    (hm : findMessage db id = some m) : m ∈ db.messages :=
  List.mem_of_find?_eq_some hm

/-- Looking a message up again after saving an edit of it under the same id
returns the edited document. -/
theorem findMessage_save (db : DB) (id : String) (m m' : Message)
    (hm : findMessage db id = some m) (hid : m'.id = id) :
    findMessage (saveMessage db id m') id = some m' := by
  have hm' : db.messages.find? (fun x => x.id == id) = some m := hm
  exact find?_update (fun x : Message => x.id == id) m' (by simp [hid])
    db.messages m hm'

/-- The ownership guard shared by the two delete handlers
(`message.userId.toString() !== req.user.userId && req.user.role !== 'admin'`)
is false exactly when the requester owns the entity or is an admin. -/
theorem guard_eq_false_iff (ownerId : String) (user : Claims) :
    (ownerId != user.userId && user.role != "admin") = false ↔
      (user.userId = ownerId ∨ user.role = "admin") := by
  constructor
  · intro h
    rcases Bool.and_eq_false_iff.mp h with h1 | h1
    · left
      have : ownerId = user.userId := by simpa using h1
      exact this.symm
    · right
      simpa using h1
  · intro h
    rcases h with h1 | h1
    · simp [h1]
    · simp [h1]

/-- C1: a delete request on an existing Message (resp. Reply) succeeds with
200 and removes the entity exactly when the acting user's `userId` equals
the entity's `userId` or the acting role is `admin`; otherwise the handler
responds 403 and the store is unchanged. -/
theorem delete_requires_owner_or_admin (user : Claims) (mid rid : String)
    (db : DB) (m : Message) (r : Reply)
    (hm : findMessage db mid = some m) (hr : findReply db rid = some r) :
    ((user.userId = m.userId ∨ user.role = "admin") →
      (deleteMessage user mid db).1 = 200 ∧
      findMessage (deleteMessage user mid db).2 mid = none) ∧
    (¬(user.userId = m.userId ∨ user.role = "admin") →
      deleteMessage user mid db = (403, db)) ∧
    ((user.userId = r.userId ∨ user.role = "admin") →
      (deleteReply user mid rid db).1 = 200 ∧
      findReply (deleteReply user mid rid db).2 rid = none) ∧
    (¬(user.userId = r.userId ∨ user.role = "admin") →
      deleteReply user mid rid db = (403, db)) := by
  refine ⟨?_, ?_, ?_, ?_⟩
  · intro h
    have hc : (m.userId != user.userId && user.role != "admin") = false :=
      (guard_eq_false_iff m.userId user).mpr h
    constructor
    · simp [deleteMessage, hm, hc]
    · simp only [deleteMessage, hm, hc, Bool.false_eq_true, if_false]
      exact find?_filter_neg (fun x : Message => x.id == mid) db.messages
  · intro h
    have hc : (m.userId != user.userId && user.role != "admin") = true := by
      rcases Bool.eq_false_or_eq_true
        (m.userId != user.userId && user.role != "admin") with h' | h'
      · exact h'
      · exact absurd ((guard_eq_false_iff m.userId user).mp h') h
    simp [deleteMessage, hm, hc]
  · intro h
    have hc : (r.userId != user.userId && user.role != "admin") = false :=
      (guard_eq_false_iff r.userId user).mpr h
    constructor
    · simp [deleteReply, hm, hr, hc]
    · simp only [deleteReply, hm, hr, hc, Bool.false_eq_true, if_false]
      exact find?_filter_neg (fun x : Reply => x.id == rid) db.replies
  · intro h
    have hc : (r.userId != user.userId && user.role != "admin") = true := by
      rcases Bool.eq_false_or_eq_true
        (r.userId != user.userId && user.role != "admin") with h' | h'
      · exact h'
      · exact absurd ((guard_eq_false_iff r.userId user).mp h') h
    simp [deleteReply, hm, hr, hc]

/-- C1 witness: on the sample store, `u2` is denied deleting `u1`'s message
`m1` with 403 and no change, and the admin deletes reply `r1` (owned by
`u2`) with 200. -/
theorem delete_requires_owner_or_admin_witness :
    deleteMessage user2 "m1" db1 = (403, db1) ∧
    (deleteReply admin1 "m1" "r1" db1).1 = 200 := by
  constructor
  · exact (delete_requires_owner_or_admin user2 "m1" "r1" db1 msg1 rep1
      (by decide) (by decide)).2.1 (by decide)
  · exact ((delete_requires_owner_or_admin admin1 "m1" "r1" db1 msg1 rep1
      (by decide) (by decide)).2.2.1 (by decide)).1

/-- C2: on a protected route the session validator rejects before the
handler runs with 401 (`MissingCredentials`) when the `Authorization`
header is absent or has no token segment after `Bearer`, and with 403
(`InvalidCredentials`) when the token fails verification — in particular
any token at or past its expiry is rejected; on success the handler runs
with the decoded claims `{userId, role, avatar, gender}` attached, and a
rejection leaves the store untouched. -/
theorem sessionValidator_spec (secret : String) (now : Nat) (db : DB)
    (handler : Claims → DB → Nat × DB) :
    (protectedRoute secret now none handler db = (401, db)) ∧
    (∀ h : String, (jsSplit h ' ').get? 1 = none →
      protectedRoute secret now (some h) handler db = (401, db)) ∧
    (∀ h : String, (jsSplit h ' ').get? 1 = some "" →
      protectedRoute secret now (some h) handler db = (401, db)) ∧
    (∀ h tok : String, (jsSplit h ' ').get? 1 = some tok → tok ≠ "" →
      jwtVerify secret now tok = none →
      protectedRoute secret now (some h) handler db = (403, db)) ∧
    (∀ (s : String) (t : SignedToken), parseToken s = some t → t.exp ≤ now →
      jwtVerify secret now s = none) ∧
    (∀ (h tok : String) (c : Claims), (jsSplit h ' ').get? 1 = some tok →
      tok ≠ "" → jwtVerify secret now tok = some c →
      protectedRoute secret now (some h) handler db = handler c db) ∧
    (∀ (s : String) (t : SignedToken), parseToken s = some t →
      t.sig = signToken secret t.userId t.role t.avatar t.gender t.exp →
      now < t.exp →
      jwtVerify secret now s =
        some { userId := t.userId, role := t.role, avatar := t.avatar,
               gender := t.gender }) := by
  refine ⟨rfl, ?_, ?_, ?_, ?_, ?_, ?_⟩
  · intro h hseg
    simp only [List.get?_eq_getElem?] at hseg
    simp [protectedRoute, authMiddleware, hseg]
  · intro h hseg
    simp only [List.get?_eq_getElem?] at hseg
    simp [protectedRoute, authMiddleware, hseg]
  · intro h tok hseg htok hver
    simp only [List.get?_eq_getElem?] at hseg
    have htok' : (tok == "") = false := by simp [htok]
    simp [protectedRoute, authMiddleware, hseg, htok', hver]
  · intro s t hparse hexp
    have : ¬ now < t.exp := by omega
    simp [jwtVerify, hparse, this]
  · intro h tok c hseg htok hver
    simp only [List.get?_eq_getElem?] at hseg
    have htok' : (tok == "") = false := by simp [htok]
    simp [protectedRoute, authMiddleware, hseg, htok', hver]
  · intro s t hparse hsig hlt
    simp [jwtVerify, hparse, hsig, hlt]

/-- C2 witness: with secret `"s"` at time 10, a valid token for `u1` lets
the delete handler run as `u1`; at time 200 the same token is expired and
rejected with 403; a bare `Bearer` header and a missing header are rejected
with 401 — the store untouched in every rejection. -/
theorem sessionValidator_spec_witness :
    protectedRoute "s" 10 (some "Bearer u1.user.av.f.100.2288")
        (fun c d => deleteMessage c "m1" d) db1 =
      deleteMessage user1 "m1" db1 ∧
    protectedRoute "s" 200 (some "Bearer u1.user.av.f.100.2288")
        (fun c d => deleteMessage c "m1" d) db1 = (403, db1) ∧
    protectedRoute "s" 10 (some "Bearer")
        (fun c d => deleteMessage c "m1" d) db1 = (401, db1) ∧
    protectedRoute "s" 10 none
        (fun c d => deleteMessage c "m1" d) db1 = (401, db1) := by
  refine ⟨?_, ?_, ?_, ?_⟩
  · exact (sessionValidator_spec "s" 10 db1
        (fun c d => deleteMessage c "m1" d)).2.2.2.2.2.1
      "Bearer u1.user.av.f.100.2288" "u1.user.av.f.100.2288" user1
      (by decide) (by decide) (by decide)
  · exact (sessionValidator_spec "s" 200 db1
        (fun c d => deleteMessage c "m1" d)).2.2.2.1
      "Bearer u1.user.av.f.100.2288" "u1.user.av.f.100.2288"
      (by decide) (by decide) (by decide)
  · exact (sessionValidator_spec "s" 10 db1
        (fun c d => deleteMessage c "m1" d)).2.1 "Bearer" (by decide)
  · exact (sessionValidator_spec "s" 10 db1
        (fun c d => deleteMessage c "m1" d)).1

/-- C3: the edit handler checks only ownership — a requester whose `userId`
differs from the message's owner gets 403 and an unchanged store, whatever
the requester's role, admin included. -/
theorem putMessage_admin_no_override (user : Claims) (id : String)
    (patch : MessagePatch) (db : DB) (m : Message)
    (hm : findMessage db id = some m) (hne : user.userId ≠ m.userId) :
    putMessage user id patch db = (403, db) := by
  have hc : (m.userId != user.userId) = true := by
    simp [bne_iff_ne]
    exact fun h => hne h.symm
  simp [putMessage, hm, hc]

/-- C3 witness: the admin is rejected with 403 when editing `u1`'s message
`m1`, and the store is unchanged. -/
theorem putMessage_admin_no_override_witness :
    putMessage admin1 "m1"
      { name := some "x", message := none, textColor := none } db1 =
      (403, db1) := by
  exact putMessage_admin_no_override admin1 "m1"
    { name := some "x", message := none, textColor := none } db1 msg1
    (by decide) (by decide)

/-- One like/unlike request keeps every like count non-negative. -/
theorem applyLikeOp_nonneg (op : LikeOp) (db : DB)
    (hdb : ∀ m ∈ db.messages, 0 ≤ m.likes) :
    ∀ m ∈ (applyLikeOp db op).messages, 0 ≤ m.likes := by
  cases op with
  | like id =>
    cases hfind : findMessage db id with
    | none =>
      intro m hm
      simp only [applyLikeOp, likeMessage, hfind] at hm
      exact hdb m hm
    | some m0 =>
      intro m hm
      simp only [applyLikeOp, likeMessage, hfind, saveMessage] at hm
      rcases List.mem_map.mp hm with ⟨x, hx, hfx⟩
      by_cases hxid : (x.id == id) = true
      · rw [if_pos hxid] at hfx
        have h0 := hdb m0 (findMessage_mem hfind)
        rw [← hfx]
        show (0 : Int) ≤ m0.likes + 1
        linarith
      · rw [if_neg hxid] at hfx
        exact hfx ▸ hdb x hx
  | unlike id =>
    cases hfind : findMessage db id with
    | none =>
      intro m hm
      simp only [applyLikeOp, unlikeMessage, hfind] at hm
      exact hdb m hm
    | some m0 =>
      intro m hm
      simp only [applyLikeOp, unlikeMessage, hfind, saveMessage] at hm
      rcases List.mem_map.mp hm with ⟨x, hx, hfx⟩
      by_cases hxid : (x.id == id) = true
      · rw [if_pos hxid] at hfx
        have h0 := hdb m0 (findMessage_mem hfind)
        rw [← hfx]
        by_cases hpos : m0.likes > 0
        · rw [if_pos hpos]
          show (0 : Int) ≤ m0.likes - 1
          linarith
        · rw [if_neg hpos]
          exact h0
      · rw [if_neg hxid] at hfx
        exact hfx ▸ hdb x hx

/-- C4: on an existing message, `like` increments the like count by one
unconditionally and `unlike` decrements it only when it is positive; when
the count is 0, `unlike` leaves the message untouched and still responds
200; hence every like count stays non-negative under any sequence of
like/unlike requests. -/
theorem like_unlike_spec :
    (∀ (id : String) (db : DB) (m : Message), findMessage db id = some m →
      (likeMessage id db).1 = 200 ∧
      findMessage (likeMessage id db).2 id =
        some { m with likes := m.likes + 1 }) ∧
    (∀ (id : String) (db : DB) (m : Message), findMessage db id = some m →
      0 < m.likes →
      (unlikeMessage id db).1 = 200 ∧
      findMessage (unlikeMessage id db).2 id =
        some { m with likes := m.likes - 1 }) ∧
    (∀ (id : String) (db : DB) (m : Message), findMessage db id = some m →
      m.likes = 0 →
      (unlikeMessage id db).1 = 200 ∧
      findMessage (unlikeMessage id db).2 id = some m) ∧
    (∀ (ops : List LikeOp) (db : DB), (∀ m ∈ db.messages, 0 ≤ m.likes) →
      ∀ m ∈ (applyLikeOps db ops).messages, 0 ≤ m.likes) := by
  refine ⟨?_, ?_, ?_, ?_⟩
  · intro id db m hm
    refine ⟨by simp [likeMessage, hm], ?_⟩
    simp only [likeMessage, hm]
    exact findMessage_save db id m _ hm (@findMessage_id db id m hm)
  · intro id db m hm hpos
    refine ⟨by simp [unlikeMessage, hm], ?_⟩
    simp only [unlikeMessage, hm, if_pos hpos]
    exact findMessage_save db id m _ hm (@findMessage_id db id m hm)
  · intro id db m hm h0
    have hneg : ¬ m.likes > 0 := by omega
    refine ⟨by simp [unlikeMessage, hm], ?_⟩
    simp only [unlikeMessage, hm, if_neg hneg]
    exact findMessage_save db id m m hm (findMessage_id hm)
  · intro ops
    induction ops with
    | nil => intro db hdb; exact hdb
    | cons op rest ih =>
      intro db hdb
      have hstep := applyLikeOp_nonneg op db hdb
      have := ih (applyLikeOp db op) hstep
      simpa [applyLikeOps, List.foldl_cons] using this

/-- C4 witness: on the sample store, liking `m1` takes its count from 0 to
1, unliking `m1` at count 0 responds 200 and leaves it at 0, and a
sequence of requests starting from the sample store keeps counts
non-negative. -/
theorem like_unlike_spec_witness :
    ((likeMessage "m1" db1).1 = 200 ∧
      findMessage (likeMessage "m1" db1).2 "m1" =
        some { msg1 with likes := 1 }) ∧
    ((unlikeMessage "m1" db1).1 = 200 ∧
      findMessage (unlikeMessage "m1" db1).2 "m1" = some msg1) ∧
    (∀ m ∈ (applyLikeOps db1
        [.unlike "m1", .unlike "m1", .like "m2", .unlike "m2"]).messages,
      0 ≤ m.likes) := by
  refine ⟨?_, ?_, ?_⟩
  · have h := like_unlike_spec.1 "m1" db1 msg1 (by decide)
    exact ⟨h.1, by rw [h.2]; decide⟩
  · exact like_unlike_spec.2.2.1 "m1" db1 msg1 (by decide) (by decide)
  · exact like_unlike_spec.2.2.2
      [.unlike "m1", .unlike "m1", .like "m2", .unlike "m2"] db1 (by decide)

/-- A store with no documents at all. -/
def dbEmpty : DB := { messages := [], replies := [], appeals := [] }

/-- C5 counterexample: in the empty store no Message `m1` exists, yet
creating a reply to it responds 201 (not 404 `NotFound`) and a Reply
record referencing the missing parent is created. -/
theorem createReply_missing_parent_cex :
    findMessage dbEmpty "m1" = none ∧
    (createReply user1 "m1" "hi" "r1" dbEmpty).1 = 201 ∧
    (createReply user1 "m1" "hi" "r1" dbEmpty).1 ≠ 404 ∧
    findReply (createReply user1 "m1" "hi" "r1" dbEmpty).2 "r1" =
      some { id := "r1", messageId := "m1", userId := "u1", reply := "hi" } := by
  decide

/-- C5 as amended: creating a reply requires non-empty reply text (400
otherwise), but the handler never checks that the parent Message exists:
for any `messageId` it appends the new Reply record to the reply
collection and responds 201, and when no Message with `messageId` exists
the parent-list `$push` is a no-op, leaving an orphan reply. -/
theorem createReply_spec (user : Claims) (mid text nid : String) (db : DB) :
    (text = "" → createReply user mid text nid db = (400, db)) ∧
    (text ≠ "" →
      (createReply user mid text nid db).1 = 201 ∧
      (createReply user mid text nid db).2.replies = db.replies ++
        [{ id := nid, messageId := mid, userId := user.userId,
           reply := text }] ∧
      (findMessage db mid = none →
        (createReply user mid text nid db).2.messages = db.messages)) := by
  constructor
  · intro h
    simp [createReply, h]
  · intro h
    have h' : (text == "") = false := by simp [h]
    refine ⟨by simp [createReply, h'], by simp [createReply, h'], ?_⟩
    intro hnone
    have hall : ∀ x ∈ db.messages, (x.id == mid) = false := by
      intro x hx
      have := List.find?_eq_none.mp hnone x hx
      simpa using this
    simp only [createReply, h', Bool.false_eq_true, if_false]
    exact map_if_no_match (fun x : Message => x.id == mid)
      (fun m => { m with replies := m.replies ++ [nid] }) db.messages hall

/-- C5 witness: with non-empty text `"hi"` and no parent in the empty
store, the reply is appended and the message collection is untouched. -/
theorem createReply_spec_witness :
    (createReply user2 "m9" "hi" "r9" dbEmpty).1 = 201 ∧
    (createReply user2 "m9" "hi" "r9" dbEmpty).2.replies =
      [{ id := "r9", messageId := "m9", userId := "u2", reply := "hi" }] ∧
    (createReply user2 "m9" "hi" "r9" dbEmpty).2.messages = [] := by
  have h := (createReply_spec user2 "m9" "hi" "r9" dbEmpty).2 (by decide)
  exact ⟨h.1, h.2.1, h.2.2 (by decide)⟩

/-- C6: an authorized deletion of an existing reply of an existing parent
message responds 200, removes the Reply record (a subsequent fetch finds
nothing) and removes the reply's id from the parent's reply list in the
saved parent document. -/
theorem deleteReply_consistent (user : Claims) (mid rid : String) (db : DB)
    (m : Message) (r : Reply)
    (hm : findMessage db mid = some m) (hr : findReply db rid = some r)
    (_hparent : r.messageId = mid)
    (hauth : user.userId = r.userId ∨ user.role = "admin") :
    (deleteReply user mid rid db).1 = 200 ∧
    findReply (deleteReply user mid rid db).2 rid = none ∧
    ∃ m', findMessage (deleteReply user mid rid db).2 mid = some m' ∧
      rid ∉ m'.replies ∧
      m'.replies = m.replies.filter (fun x => x != rid) := by
  have hc : (r.userId != user.userId && user.role != "admin") = false :=
    (guard_eq_false_iff r.userId user).mpr hauth
  refine ⟨by simp [deleteReply, hm, hr, hc], ?_, ?_⟩
  · simp only [deleteReply, hm, hr, hc, Bool.false_eq_true, if_false]
    exact find?_filter_neg (fun x : Reply => x.id == rid) db.replies
  · refine ⟨{ m with replies := m.replies.filter (fun x => x != rid) },
      ?_, ?_, rfl⟩
    · simp only [deleteReply, hm, hr, hc, Bool.false_eq_true, if_false]
      have hm1 : findMessage
          { db with replies := db.replies.filter (fun x => x.id != rid) }
          mid = some m := hm
      exact findMessage_save _ mid m _ hm1 (@findMessage_id db mid m hm)
    · intro hmem
      have := (List.mem_filter.mp hmem).2
      simp at this

/-- C6 witness: `u2` deletes their reply `r1` under its parent `m1`: the
handler responds 200, the reply is gone from the collection, and `r1` no
longer appears in the saved parent document's reply list. -/
theorem deleteReply_consistent_witness :
    (deleteReply user2 "m1" "r1" db1).1 = 200 ∧
    findReply (deleteReply user2 "m1" "r1" db1).2 "r1" = none ∧
    ∃ m', findMessage (deleteReply user2 "m1" "r1" db1).2 "m1" = some m' ∧
      "r1" ∉ m'.replies ∧
      m'.replies = msg1.replies.filter (fun x => x != "r1") :=
  deleteReply_consistent user2 "m1" "r1" db1 msg1 rep1
    (by decide) (by decide) (by decide) (by decide)

/-- Saving a document under one id does not change what a lookup with a
different id returns. -/
theorem findMessage_save_other (db : DB) (id oid : String) (m' : Message)
    (hid : m'.id = id) (hne : oid ≠ id) :
    findMessage (saveMessage db id m') oid = findMessage db oid := by
  apply find?_map_invariant (fun x : Message => x.id == oid)
    (fun x => if x.id == id then m' else x) db.messages
  · intro x
    by_cases hx : (x.id == id) = true
    · have hxid : x.id = id := by simpa using hx
      rw [if_pos hx]
      simp [hid, hxid, hne]
    · rw [if_neg hx]
  · intro x hqx
    have hxo : x.id = oid := by simpa using hqx
    have hfalse : (x.id == id) = false := by simp [hxo, hne]
    simp [hfalse]

/-- C7: the appeal delete handler performs no ownership, role or existence
check: for every caller and every id — present in the store or not — it
responds 200 (never 403 or 404), removes any appeal with that id, keeps
every other appeal, and leaves messages and replies untouched. -/
theorem deleteAppeal_no_checks (user : Claims) (id : String) (db : DB) :
    (deleteAppeal user id db).1 = 200 ∧
    findAppeal (deleteAppeal user id db).2 id = none ∧
    (∀ a ∈ db.appeals, a.id ≠ id → a ∈ (deleteAppeal user id db).2.appeals) ∧
    (deleteAppeal user id db).2.messages = db.messages ∧
    (deleteAppeal user id db).2.replies = db.replies := by
  refine ⟨rfl, ?_, ?_, rfl, rfl⟩
  · exact find?_filter_neg (fun a : Appeal => a.id == id) db.appeals
  · intro a ha hne
    exact List.mem_filter.mpr ⟨ha, by simp [hne]⟩

/-- C7 witness: even for an id `zz` with no matching appeal and a
non-admin, non-owner caller, the handler responds 200 and the existing
appeal `a1` of the sample store survives. -/
theorem deleteAppeal_no_checks_witness :
    (deleteAppeal user2 "zz" db1).1 = 200 ∧
    app1 ∈ (deleteAppeal user2 "zz" db1).2.appeals := by
  have h := deleteAppeal_no_checks user2 "zz" db1
  exact ⟨h.1, h.2.2.1 app1 (by decide) (by decide)⟩

/-- C8: an authorized edit applies exactly the patch fields that are
present (absent fields keep their value), never touches the owner, images,
like count or reply list of the message, and leaves every other message
and the other collections unchanged. -/
theorem putMessage_partial_update (user : Claims) (id : String)
    (patch : MessagePatch) (db : DB) (m : Message)
    (hm : findMessage db id = some m) (hown : user.userId = m.userId) :
    (putMessage user id patch db).1 = 200 ∧
    findMessage (putMessage user id patch db).2 id = some
      { m with
        name := patch.name.getD m.name,
        message := patch.message.getD m.message,
        textColor := patch.textColor.getD m.textColor } ∧
    (∀ oid : String, oid ≠ id →
      findMessage (putMessage user id patch db).2 oid = findMessage db oid) ∧
    (putMessage user id patch db).2.replies = db.replies ∧
    (putMessage user id patch db).2.appeals = db.appeals := by
  obtain ⟨pn, pm', pt⟩ := patch
  have hc : (m.userId != user.userId) = false := by simp [← hown]
  refine ⟨?_, ?_, ?_, ?_, ?_⟩
  · cases pn <;> cases pm' <;> cases pt <;> simp [putMessage, hm, hc]
  · cases pn <;> cases pm' <;> cases pt <;>
      · simp only [putMessage, hm, hc, Bool.false_eq_true, if_false]
        exact findMessage_save db id m _ hm (@findMessage_id db id m hm)
  · intro oid hne
    cases pn <;> cases pm' <;> cases pt <;>
      · simp only [putMessage, hm, hc, Bool.false_eq_true, if_false]
        exact findMessage_save_other db id oid _
          (@findMessage_id db id m hm) hne
  · cases pn <;> cases pm' <;> cases pt <;>
      simp [putMessage, hm, hc, saveMessage]
  · cases pn <;> cases pm' <;> cases pt <;>
      simp [putMessage, hm, hc, saveMessage]

/-- C8 witness: `u1` edits `m1` with a patch carrying only `textColor`:
name and text keep their values, the color changes, owner/likes/replies
are untouched, and `m2` is unchanged. -/
theorem putMessage_partial_update_witness :
    (putMessage user1 "m1"
        { name := none, message := none, textColor := some "#f00" } db1).1 =
      200 ∧
    findMessage (putMessage user1 "m1"
        { name := none, message := none, textColor := some "#f00" } db1).2
      "m1" = some { msg1 with textColor := "#f00" } ∧
    findMessage (putMessage user1 "m1"
        { name := none, message := none, textColor := some "#f00" } db1).2
      "m2" = findMessage db1 "m2" := by
  have h := putMessage_partial_update user1 "m1"
    { name := none, message := none, textColor := some "#f00" } db1 msg1
    (by decide) (by decide)
  exact ⟨h.1, h.2.1, h.2.2.1 "m2" (by decide)⟩

/-- C9: deleting a message never cascade-deletes its replies: the reply
collection is untouched, so every Reply referencing the deleted message
still exists afterwards. -/
theorem deleteMessage_no_cascade (user : Claims) (id : String) (db : DB)
    (m : Message) (hm : findMessage db id = some m)
    (hauth : user.userId = m.userId ∨ user.role = "admin") :
    (deleteMessage user id db).1 = 200 ∧
    (deleteMessage user id db).2.replies = db.replies ∧
    ∀ r ∈ db.replies, r.messageId = id →
      r ∈ (deleteMessage user id db).2.replies := by
  have hc : (m.userId != user.userId && user.role != "admin") = false :=
    (guard_eq_false_iff m.userId user).mpr hauth
  refine ⟨by simp [deleteMessage, hm, hc], by simp [deleteMessage, hm, hc], ?_⟩
  intro r hr _
  simpa [deleteMessage, hm, hc] using hr

/-- C9 witness: `u1` deletes `m1`; the handler responds 200 and reply `r1`,
which references `m1`, is still in the reply collection. -/
theorem deleteMessage_no_cascade_witness :
    (deleteMessage user1 "m1" db1).1 = 200 ∧
    rep1 ∈ (deleteMessage user1 "m1" db1).2.replies := by
  have h := deleteMessage_no_cascade user1 "m1" db1 msg1 (by decide)
    (by decide)
  exact ⟨h.1, h.2.2 rep1 (by decide) (by decide)⟩

/-- C10: reply deletion never checks that the reply belongs to the message
named in the route: when the reply's real parent is a different existing
message, the authorized request still succeeds with 200, the Reply record
is deleted, and the real parent's document is left as it was — its reply
list still contains the deleted reply's id, now dangling. -/
theorem deleteReply_dangling (user : Claims) (mid rid : String) (db : DB)
    (m mo : Message) (r : Reply)
    (hm : findMessage db mid = some m) (hr : findReply db rid = some r)
    (hauth : user.userId = r.userId ∨ user.role = "admin")
    (hpar : r.messageId ≠ mid)
    (hmo : findMessage db r.messageId = some mo)
    (hdang : rid ∈ mo.replies) :
    (deleteReply user mid rid db).1 = 200 ∧
    findReply (deleteReply user mid rid db).2 rid = none ∧
    findMessage (deleteReply user mid rid db).2 r.messageId = some mo ∧
    rid ∈ mo.replies := by
  have hc : (r.userId != user.userId && user.role != "admin") = false :=
    (guard_eq_false_iff r.userId user).mpr hauth
  refine ⟨by simp [deleteReply, hm, hr, hc], ?_, ?_, hdang⟩
  · simp only [deleteReply, hm, hr, hc, Bool.false_eq_true, if_false]
    exact find?_filter_neg (fun x : Reply => x.id == rid) db.replies
  · simp only [deleteReply, hm, hr, hc, Bool.false_eq_true, if_false]
    have hmo1 : findMessage
        { db with replies := db.replies.filter (fun x => x.id != rid) }
        r.messageId = some mo := hmo
    calc findMessage (saveMessage
          { db with replies := db.replies.filter (fun x => x.id != rid) }
          mid { m with replies := m.replies.filter (fun x => x != rid) })
          r.messageId
        = findMessage
            { db with replies := db.replies.filter (fun x => x.id != rid) }
            r.messageId :=
          findMessage_save_other _ mid r.messageId _
            (@findMessage_id db mid m hm) hpar
      _ = some mo := hmo1

/-- C10 witness: `u1` requests deletion of their reply `r2` through message
`m1`, though `r2`'s real parent is `m2`: the handler responds 200, deletes
`r2` from the collection, and `m2` still lists `r2`, now dangling. -/
theorem deleteReply_dangling_witness :
    (deleteReply user1 "m1" "r2" db1).1 = 200 ∧
    findReply (deleteReply user1 "m1" "r2" db1).2 "r2" = none ∧
    findMessage (deleteReply user1 "m1" "r2" db1).2 "m2" = some msg2 ∧
    "r2" ∈ msg2.replies := by
  exact deleteReply_dangling user1 "m1" "r2" db1 msg1 msg2 rep2
    (by decide) (by decide) (by decide) (by decide) (by decide) (by decide)

end Back
